import Mathlib

/-!
Verification of the Meowstik MPC server (`src/app.py`).

The server exposes `POST /process_url`: it reads a JSON body, requires a
truthy `url` field, issues `requests.get(url, timeout=30)`, and either
packages the upstream response into a nested callback payload (HTTP 200),
rejects the request (HTTP 400), or maps a caught
`requests.exceptions.RequestException` to HTTP 500.

The embedding below models JSON values as an inductive type, the Python
truthiness test used by `if not url:`, Python `dict` construction over
key/value pairs (last value wins, first position kept), the
`requests`/`urllib3` client-side merge that comma-joins duplicate header
names before `dict(response.headers)` ever sees them, and the request
handler `process_url` as a pure function parameterised by an oracle for
the outbound HTTP GET and by the wall-clock timestamp string.
-/

namespace Meowstik

/-- JSON values, as parsed by Flask's `request.json` and produced by
`jsonify`.  Numbers are modelled as integers (the claims only exercise
integral values); objects are ordered key/value lists, mirroring Python
dict insertion order. -/
inductive Json : Type where
  | null : Json
  | bool : Bool → Json
  | num : Int → Json
  | str : String → Json
  | arr : List Json → Json
  | obj : List (String × Json) → Json

/-- Python truthiness of a JSON-decoded value: `None`, `False`, `0`, `""`,
`[]` and the empty dict are falsy, everything else is truthy.  This is the
test performed by `if not url:` in `process_url`. -/
def pyTruthy : Json → Bool
  | .null => false
  | .bool b => b
  | .num n => n != 0
  | .str s => s != ""
  | .arr xs => !xs.isEmpty
  | .obj kvs => !kvs.isEmpty

/-- Truthiness of the result of Python `dict.get`: a missing key yields
`None`, which is falsy. -/
def pyTruthyOpt : Option Json → Bool
  | none => false
  | some j => pyTruthy j

/-- Lookup in an association list where a later binding for the same key
shadows an earlier one.  This models lookup in a Python dict built by
`json.loads` (duplicate keys in the JSON text keep the last value), and is
also the specification of "duplicate headers collapse to last-wins". -/
def getLastVal {α : Type} (k : String) : List (String × α) → Option α
  | [] => none
  | p :: ps =>
    match getLastVal k ps with
    | some v => some v
    | none => if p.1 = k then some p.2 else none

/-- First-match lookup in an association list whose keys are unique (a
constructed Python dict). -/
def dictGet {α : Type} (k : String) : List (String × α) → Option α
  | [] => none
  | p :: ps => if p.1 = k then some p.2 else dictGet k ps

/-- One step of Python dict construction: inserting the binding `k ↦ v`
updates the existing entry for `k` in place if there is one, otherwise
appends the new binding at the end. -/
def dictInsert (acc : List (String × String)) (k v : String) :
    List (String × String) :=
  match dictGet k acc with
  | some _ => acc.map (fun p => if p.1 = k then (k, v) else p)
  | none => acc ++ [(k, v)]

/-- Python `dict(pairs)`: fold the bindings left to right, last value for
a key wins, first position for a key is kept.  This models
`dict(response.headers)` on line 26 of `src/app.py`, with the upstream
headers taken as a raw list of name/value pairs. -/
def pyDict (ps : List (String × String)) : List (String × String) :=
  ps.foldl (fun acc p => dictInsert acc p.1 p.2) []

/-- One step of the client-side header merge performed by `urllib3`'s
`HTTPHeaderDict`: a value arriving for an already-present header name is
appended to the stored value with a `", "` separator at the name's first
position; a new name is appended at the end. -/
def addHeaderValue (acc : List (String × String)) (k v : String) :
    List (String × String) :=
  match dictGet k acc with
  | some _ => acc.map (fun p => if p.1 = k then (p.1, p.2 ++ ", " ++ v) else p)
  | none => acc ++ [(k, v)]

/-- The header mapping the `requests` client delivers as
`response.headers`: duplicate names among the raw wire headers are merged
into a single comma-joined value before any code in `src/app.py` can
observe them.  The `requests` sources are outside this repository, so this
definition models the library's well-established behaviour: `urllib3` joins
duplicate values with `", "` in arrival order.  Names are matched exactly
here; the real mapping also merges names differing only in letter case,
which no claim exercises. -/
def mergeHeaders (ps : List (String × String)) : List (String × String) :=
  ps.foldl (fun acc p => addHeaderValue acc p.1 p.2) []

/-- All values carried for header name `k` among the raw wire headers, in
arrival order. -/
def valuesFor (k : String) : List (String × String) → List String
  | [] => []
  | p :: ps => if p.1 = k then p.2 :: valuesFor k ps else valuesFor k ps

/-- Comma-join of a value and its successors, `", "`-separated. -/
def joinFold (v : String) (vs : List String) : String :=
  vs.foldl (fun a b => a ++ ", " ++ b) v

/-- The upstream HTTP response: status code, the raw header name/value
pairs as they appeared on the wire, and the body decoded as text
(`response.text`).  The handler never sees the raw pairs directly: the
client exposes them only through the merged mapping `mergeHeaders`. -/
structure UpstreamResponse where
  status_code : Int
  headers : List (String × String)
  text : String
deriving DecidableEq

/-- Outcome of `requests.get(url, timeout=30)`: either a response object,
or a raised `requests.exceptions.RequestException` carrying `str(e)` —
the only exception class the handler catches, and the class under which
`requests` reports timeouts, connection failures, DNS failures and TLS
failures. -/
inductive FetchResult : Type where
  | ok : UpstreamResponse → FetchResult
  | exn : String → FetchResult
deriving DecidableEq

/-- A response from the gateway: HTTP status plus the `jsonify`-ed body. -/
structure GatewayResponse where
  status : Nat
  body : Json

/-- The `headers` field of the packaged response:
`dict(response.headers)` on line 26 rendered as a JSON object — Python
`dict` applied to the client-merged mapping of the raw wire pairs `ps`,
which is what `response.headers` actually hands to `dict`. -/
def headersJson (ps : List (String × String)) : Json :=
  .obj ((pyDict (mergeHeaders ps)).map (fun p => (p.1, Json.str p.2)))

/-- The 400 response `jsonify({"error": "URL is required"}), 400`. -/
def errURLRequired : GatewayResponse :=
  ⟨400, .obj [("error", .str "URL is required")]⟩

/-- The `POST /process_url` handler of `src/app.py`, embedded as a pure
function.  `body` is the parsed JSON object bound to `data`;  `httpGet`
is the oracle for `requests.get(url, timeout=30)` (applied to the JSON
value bound to `url`);  `now` is `datetime.datetime.now().isoformat()`.
The `print` on line 47 is a side effect with no influence on the response
and is not modelled. -/
def process_url (body : List (String × Json)) (httpGet : Json → FetchResult)
    (now : String) : GatewayResponse :=
  let url := getLastVal "url" body
  let _data_type := (getLastVal "dataType" body).getD (.str "http_response")
  let original_prompt := getLastVal "originalPrompt" body
  if pyTruthyOpt url = false then
    errURLRequired
  else
    match httpGet (url.getD .null) with
    | .ok response =>
      let http_response_package : Json := .obj
        [ ("status_code", .num response.status_code)
        , ("headers", headersJson response.headers)
        , ("content", .str response.text)
        , ("url", url.getD .null) ]
      let callback_payload : Json := .obj
        [ ("automated_return", .bool true)
        , ("original_prompt", original_prompt.getD .null)
        , ("timestamp", .str now)
        , ("status_metadata", .str "Content gathering complete.")
        , ("result_package", .obj
            [ ("dataType", .str "http_response")
            , ("data", http_response_package) ]) ]
      ⟨200, .obj
        [ ("message", .str "URL processing initiated (simulated callback)")
        , ("payload_preview", callback_payload) ]⟩
    | .exn reason => ⟨500, .obj [("error", .str reason)]⟩

/-- Field access on a JSON value: defined on objects, `none` otherwise. -/
def Json.get (j : Json) (k : String) : Option Json :=
  match j with
  | .obj kvs => getLastVal k kvs
  | _ => none

/-- Navigation along a list of field names. -/
def jsonAt (j : Json) : List String → Option Json
  | [] => some j
  | k :: ks =>
    match j.get k with
    | some v => jsonAt v ks
    | none => none

/-- A concrete request body: the scenario of §8 of the spec. -/
def demoBody : List (String × Json) :=
  [("url", .str "http://example.test/ok"), ("originalPrompt", .str "find cats")]

/-- `demoBody` with an additional, unimplemented `dataType` value. -/
def demoBodyPdf : List (String × Json) :=
  [ ("url", .str "http://example.test/ok")
  , ("originalPrompt", .str "find cats")
  , ("dataType", .str "pdf") ]

/-- A concrete upstream 200 response. -/
def demoResp : UpstreamResponse :=
  ⟨200, [("Content-Type", "application/json")], "stub body"⟩

/-- An oracle under which every GET yields `demoResp`. -/
def demoFetch : Json → FetchResult := fun _ => .ok demoResp

/-- A concrete upstream 404 response carrying a duplicated header. -/
def demoRespDup : UpstreamResponse :=
  ⟨404, [("Set-Cookie", "a"), ("Set-Cookie", "b")], "not found"⟩

/-- An oracle under which every GET yields `demoRespDup`. -/
def demoFetchDup : Json → FetchResult := fun _ => .ok demoRespDup

/-- An oracle under which every GET raises a `RequestException`. -/
def demoFetchFail : Json → FetchResult := fun _ => .exn "connection refused"

/-! ### Helper lemmas about the handler's branches and Python dicts -/

/-- First-match lookup distributes over append. -/
lemma dictGet_append {α : Type} (k : String) (xs ys : List (String × α)) :
    dictGet k (xs ++ ys) =
      match dictGet k xs with
      | some v => some v
      | none => dictGet k ys := by
  induction xs with
  | nil => simp [dictGet]
  | cons p xs ih =>
    by_cases hp : p.1 = k <;> simp [dictGet, hp, ih]

/-- Updating every binding for `k'` in place only changes the lookup of
`k'` itself, and only when some binding for `k'` exists. -/
lemma dictGet_map_update (k k' v : String) (acc : List (String × String)) :
    dictGet k (acc.map (fun p => if p.1 = k' then (k', v) else p)) =
      if k = k' then (dictGet k' acc).map (fun _ => v) else dictGet k acc := by
  induction acc with
  | nil => by_cases hk : k = k' <;> simp [dictGet, hk]
  | cons p acc ih =>
    by_cases hp : p.1 = k'
    · by_cases hk : k = k'
      · subst hk; simp [dictGet, hp, ih]
      · simp [dictGet, hp, hk, Ne.symm hk, ih]
    · by_cases hk : k = k'
      · subst hk; simp [dictGet, hp, ih]
      · simp [dictGet, hp, hk, ih]

/-- Lookup after a Python dict insertion. -/
lemma dictGet_dictInsert (k k' v : String) (acc : List (String × String)) :
    dictGet k (dictInsert acc k' v) =
      if k = k' then some v else dictGet k acc := by
  unfold dictInsert
  cases h : dictGet k' acc with
  | some w =>
    rw [dictGet_map_update]
    by_cases hk : k = k' <;> simp [hk, h]
  | none =>
    rw [dictGet_append]
    by_cases hk : k = k'
    · subst hk; rw [h]; simp [dictGet]
    · cases hx : dictGet k acc <;> simp [dictGet, hk, Ne.symm hk, hx]

/-- A key that fails to look up is not among the keys. -/
lemma not_mem_keys_of_dictGet_none {α : Type} (k : String)
    (acc : List (String × α)) (h : dictGet k acc = none) :
    k ∉ acc.map Prod.fst := by
  induction acc with
  | nil => simp
  | cons p acc ih =>
    by_cases hp : p.1 = k
    · simp [dictGet, hp] at h
    · rw [dictGet, if_neg hp] at h
      simpa [Ne.symm hp] using ih h

/-- Python dict insertion preserves key uniqueness. -/
lemma nodupKeys_dictInsert (acc : List (String × String)) (k v : String)
    (h : (acc.map Prod.fst).Nodup) :
    ((dictInsert acc k v).map Prod.fst).Nodup := by
  unfold dictInsert
  cases hg : dictGet k acc with
  | some w =>
    have hkeys :
        (acc.map (fun p => if p.1 = k then (k, v) else p)).map Prod.fst =
          acc.map Prod.fst := by
      rw [List.map_map]
      apply List.map_congr_left
      intro p _
      by_cases hp : p.1 = k <;> simp [hp]
    rw [hkeys]; exact h
  | none =>
    rw [List.map_append]
    simp only [List.map_cons, List.map_nil]
    rw [List.nodup_append]
    exact ⟨h, List.nodup_singleton k,
      by simpa [List.disjoint_right] using not_mem_keys_of_dictGet_none k acc hg⟩

/-- `dict(pairs)` has at most one binding per key. -/
lemma nodupKeys_pyDict (ps : List (String × String)) :
    ((pyDict ps).map Prod.fst).Nodup := by
  unfold pyDict
  suffices h : ∀ acc : List (String × String), (acc.map Prod.fst).Nodup →
      ((ps.foldl (fun acc p => dictInsert acc p.1 p.2) acc).map Prod.fst).Nodup by
    exact h [] (by simp)
  induction ps with
  | nil => intro acc hacc; simpa using hacc
  | cons p ps ih =>
    intro acc hacc
    exact ih _ (nodupKeys_dictInsert acc p.1 p.2 hacc)

/-- Folding dict insertions looks up to the last binding of the input,
falling back to the accumulator. -/
lemma dictGet_foldl (k : String) (ps : List (String × String)) :
    ∀ acc : List (String × String),
      dictGet k (ps.foldl (fun acc p => dictInsert acc p.1 p.2) acc) =
        match getLastVal k ps with
        | some v => some v
        | none => dictGet k acc := by
  induction ps with
  | nil => intro acc; simp [getLastVal]
  | cons p ps ih =>
    intro acc
    rw [List.foldl_cons, ih]
    cases hps : getLastVal k ps with
    | some v => simp [getLastVal, hps]
    | none =>
      rw [dictGet_dictInsert]
      by_cases hp : p.1 = k
      · simp [getLastVal, hps, hp]
      · simp [getLastVal, hps, hp, Ne.symm hp]

/-- `dict(pairs)` realises last-wins lookup over the raw pair list. -/
lemma dictGet_pyDict (ps : List (String × String)) (k : String) :
    dictGet k (pyDict ps) = getLastVal k ps := by
  unfold pyDict
  rw [dictGet_foldl]
  cases h : getLastVal k ps <;> simp [dictGet]

/-- A key outside the key list fails to look up. -/
lemma dictGet_none_of_not_mem {α : Type} (k : String) (acc : List (String × α))
    (h : k ∉ acc.map Prod.fst) : dictGet k acc = none := by
  induction acc with
  | nil => rfl
  | cons p acc ih =>
    rw [List.map_cons, List.mem_cons] at h
    push_neg at h
    simp only [dictGet]
    rw [if_neg (fun hp => h.1 hp.symm)]
    exact ih h.2

/-- Comma-extending every binding for `k'` in place only changes the
lookup of `k'` itself. -/
lemma dictGet_map_join (k k' v : String) (acc : List (String × String)) :
    dictGet k
        (acc.map (fun p => if p.1 = k' then (p.1, p.2 ++ ", " ++ v) else p)) =
      if k = k' then (dictGet k' acc).map (fun w => w ++ ", " ++ v)
      else dictGet k acc := by
  induction acc with
  | nil => by_cases hk : k = k' <;> simp [dictGet, hk]
  | cons p acc ih =>
    by_cases hp : p.1 = k'
    · by_cases hk : k = k'
      · subst hk; simp [dictGet, hp, ih]
      · simp [dictGet, hp, hk, Ne.symm hk, ih]
    · by_cases hk : k = k'
      · subst hk; simp [dictGet, hp, ih]
      · simp [dictGet, hp, hk, ih]

/-- Lookup after one client-side header merge step. -/
lemma dictGet_addHeaderValue (k k' v : String) (acc : List (String × String)) :
    dictGet k (addHeaderValue acc k' v) =
      if k = k' then
        some (match dictGet k' acc with
              | some w => w ++ ", " ++ v
              | none => v)
      else dictGet k acc := by
  unfold addHeaderValue
  cases h : dictGet k' acc with
  | some w =>
    rw [dictGet_map_join]
    by_cases hk : k = k' <;> simp [hk, h]
  | none =>
    rw [dictGet_append]
    by_cases hk : k = k'
    · subst hk; rw [h]; simp [dictGet]
    · cases hx : dictGet k acc <;> simp [dictGet, hk, Ne.symm hk, hx]

/-- A client-side merge step preserves key uniqueness. -/
lemma nodupKeys_addHeaderValue (acc : List (String × String)) (k v : String)
    (h : (acc.map Prod.fst).Nodup) :
    ((addHeaderValue acc k v).map Prod.fst).Nodup := by
  unfold addHeaderValue
  cases hg : dictGet k acc with
  | some w =>
    have hkeys :
        (acc.map (fun p => if p.1 = k then (p.1, p.2 ++ ", " ++ v) else p)).map
            Prod.fst = acc.map Prod.fst := by
      rw [List.map_map]
      apply List.map_congr_left
      intro p _
      by_cases hp : p.1 = k <;> simp [hp]
    rw [hkeys]; exact h
  | none =>
    rw [List.map_append]
    simp only [List.map_cons, List.map_nil]
    rw [List.nodup_append]
    exact ⟨h, List.nodup_singleton k,
      by simpa [List.disjoint_right] using not_mem_keys_of_dictGet_none k acc hg⟩

/-- The client-merged header mapping binds each name once. -/
lemma nodupKeys_mergeHeaders (ps : List (String × String)) :
    ((mergeHeaders ps).map Prod.fst).Nodup := by
  unfold mergeHeaders
  suffices h : ∀ acc : List (String × String), (acc.map Prod.fst).Nodup →
      ((ps.foldl (fun acc p => addHeaderValue acc p.1 p.2) acc).map
          Prod.fst).Nodup by
    exact h [] (by simp)
  induction ps with
  | nil => intro acc hacc; simpa using hacc
  | cons p ps ih =>
    intro acc hacc
    exact ih _ (nodupKeys_addHeaderValue acc p.1 p.2 hacc)

/-- Folding dict insertions over bindings whose keys are all fresh and
distinct just appends them. -/
lemma foldl_dictInsert_eq_append (ps : List (String × String)) :
    ∀ acc : List (String × String),
      ((acc ++ ps).map Prod.fst).Nodup →
      ps.foldl (fun acc p => dictInsert acc p.1 p.2) acc = acc ++ ps := by
  induction ps with
  | nil => intro acc _; simp
  | cons p ps ih =>
    intro acc h
    have hp : (p.1 : String) ∉ acc.map Prod.fst := by
      rw [List.map_append, List.nodup_append] at h
      intro hmem
      exact (h.2.2 hmem) (by simp)
    have hins : dictInsert acc p.1 p.2 = acc ++ [p] := by
      unfold dictInsert
      rw [dictGet_none_of_not_mem p.1 acc hp]
    rw [List.foldl_cons, hins, ih (acc ++ [p]) (by rwa [← List.append_cons])]
    rw [← List.append_cons]

/-- Python `dict` is the identity on a pair list that already binds each
key once — in particular on a client-delivered header mapping. -/
lemma pyDict_of_nodupKeys (ps : List (String × String))
    (h : (ps.map Prod.fst).Nodup) : pyDict ps = ps := by
  unfold pyDict
  simpa using foldl_dictInsert_eq_append ps [] (by simpa using h)

/-- Folding client merge steps accumulates, for each name, the comma-join
of all its values. -/
lemma dictGet_mergeHeaders_foldl (k : String) (ps : List (String × String)) :
    ∀ acc : List (String × String),
      dictGet k (ps.foldl (fun acc p => addHeaderValue acc p.1 p.2) acc) =
        match dictGet k acc, valuesFor k ps with
        | some w, vs => some (joinFold w vs)
        | none, [] => none
        | none, v :: vs => some (joinFold v vs) := by
  induction ps with
  | nil =>
    intro acc
    cases h : dictGet k acc <;> simp [valuesFor, joinFold, h]
  | cons p ps ih =>
    intro acc
    rw [List.foldl_cons, ih, dictGet_addHeaderValue]
    by_cases hp : p.1 = k
    · subst hp
      cases h : dictGet p.1 acc <;>
        cases hv : valuesFor p.1 ps <;>
          simp [valuesFor, joinFold, h, hv]
    · cases h : dictGet k acc <;>
        simp [valuesFor, hp, Ne.symm hp, h]

/-- The client-merged mapping looks each name up to the comma-join of all
its wire values, in order. -/
lemma dictGet_mergeHeaders (k : String) (ps : List (String × String)) :
    dictGet k (mergeHeaders ps) =
      match valuesFor k ps with
      | [] => none
      | v :: vs => some (joinFold v vs) := by
  unfold mergeHeaders
  rw [dictGet_mergeHeaders_foldl]
  cases h : valuesFor k ps <;> simp [dictGet]

/-- A falsy `url` value short-circuits the handler to the 400 response. -/
lemma process_url_reject (body : List (String × Json)) (f : Json → FetchResult)
    (now : String) (h : pyTruthyOpt (getLastVal "url" body) = false) :
    process_url body f now = errURLRequired := by
  simp only [process_url]
  rw [h]
  rfl

/-- The success branch of the handler, fully expanded. -/
lemma process_url_success (body : List (String × Json)) (f : Json → FetchResult)
    (now : String) (u : Json) (r : UpstreamResponse)
    (hurl : getLastVal "url" body = some u) (htr : pyTruthy u = true)
    (hf : f u = .ok r) :
    process_url body f now = ⟨200, .obj
      [ ("message", .str "URL processing initiated (simulated callback)")
      , ("payload_preview", .obj
          [ ("automated_return", .bool true)
          , ("original_prompt", (getLastVal "originalPrompt" body).getD .null)
          , ("timestamp", .str now)
          , ("status_metadata", .str "Content gathering complete.")
          , ("result_package", .obj
              [ ("dataType", .str "http_response")
              , ("data", .obj
                  [ ("status_code", .num r.status_code)
                  , ("headers", headersJson r.headers)
                  , ("content", .str r.text)
                  , ("url", u) ]) ]) ]) ]⟩ := by
  simp only [process_url, hurl, Option.getD_some, pyTruthyOpt, htr, hf]
  simp

/-- The exception branch of the handler. -/
lemma process_url_err (body : List (String × Json)) (f : Json → FetchResult)
    (now : String) (u : Json) (reason : String)
    (hurl : getLastVal "url" body = some u) (htr : pyTruthy u = true)
    (hf : f u = .exn reason) :
    process_url body f now = ⟨500, .obj [("error", .str reason)]⟩ := by
  simp only [process_url, hurl, Option.getD_some, pyTruthyOpt, htr, hf]
  simp

/-! ### The claims -/

/-- C1 (counterexample): on a concrete successful 200 fetch the gateway
responds 200, but the response body carries the snake_case keys
`payload_preview` and `status_code` of `src/app.py`, not the camelCase
field names `payloadPreview`/`statusCode` asserted by the claim: the
claimed paths do not exist in the body. -/
theorem C1_cex_camelCase_fields_absent :
    (process_url demoBody demoFetch "2026-01-01T00:00:00").status = 200 ∧
    Json.get (process_url demoBody demoFetch "2026-01-01T00:00:00").body
        "payloadPreview" = none ∧
    (Json.get (process_url demoBody demoFetch "2026-01-01T00:00:00").body
        "payload_preview").isSome = true ∧
    jsonAt (process_url demoBody demoFetch "2026-01-01T00:00:00").body
        ["payload_preview", "result_package", "data", "statusCode"] = none ∧
    jsonAt (process_url demoBody demoFetch "2026-01-01T00:00:00").body
        ["payload_preview", "result_package", "data", "status_code"] =
      some (.num 200) :=
  ⟨rfl, rfl, rfl, rfl, rfl⟩

/-- C1 (amended): for every request whose URL string is fetched
successfully with upstream status 200, body `B` and header mapping `H` —
`H` as the client delivers it, i.e. a fixed point of the client merge —
the gateway responds HTTP 200 with `message` equal to the fixed literal,
and the object at `payload_preview.result_package.data` equals
`(status_code: 200, headers: H, content: B, url: <the requested URL>)`,
with exactly those field names: the code's snake_case `payload_preview`,
`result_package` and `status_code` in place of the claimed camelCase
names, everything else unchanged. -/
theorem C1_success_response_shape (body : List (String × Json))
    (f : Json → FetchResult) (now u B : String) (H : List (String × String))
    (hurl : getLastVal "url" body = some (.str u)) (hne : u ≠ "")
    (hH : mergeHeaders H = H)
    (hf : f (.str u) = .ok ⟨200, H, B⟩) :
    (process_url body f now).status = 200 ∧
    Json.get (process_url body f now).body "message" =
      some (.str "URL processing initiated (simulated callback)") ∧
    jsonAt (process_url body f now).body
        ["payload_preview", "result_package", "data"] =
      some (.obj
        [ ("status_code", .num 200)
        , ("headers", .obj (H.map (fun p => (p.1, Json.str p.2))))
        , ("content", .str B)
        , ("url", .str u) ]) := by
  have htr : pyTruthy (.str u) = true := by simp [pyTruthy, hne]
  have hnodup : (H.map Prod.fst).Nodup := by
    rw [← hH]; exact nodupKeys_mergeHeaders H
  have hpack : headersJson (UpstreamResponse.mk 200 H B).headers =
      Json.obj (H.map (fun p => (p.1, Json.str p.2))) := by
    rw [show (UpstreamResponse.mk 200 H B).headers = H from rfl]
    unfold headersJson
    rw [hH, pyDict_of_nodupKeys H hnodup]
  rw [process_url_success body f now (.str u) ⟨200, H, B⟩ hurl htr hf, hpack]
  exact ⟨rfl, rfl, rfl⟩

/-- C1 (witness): the amended shape at the concrete scenario input. -/
theorem C1_success_response_shape_witness :
    (process_url demoBody demoFetch "2026-01-01T00:00:00").status = 200 ∧
    Json.get (process_url demoBody demoFetch "2026-01-01T00:00:00").body
        "message" =
      some (.str "URL processing initiated (simulated callback)") ∧
    jsonAt (process_url demoBody demoFetch "2026-01-01T00:00:00").body
        ["payload_preview", "result_package", "data"] =
      some (.obj
        [ ("status_code", .num 200)
        , ("headers", .obj [("Content-Type", .str "application/json")])
        , ("content", .str "stub body")
        , ("url", .str "http://example.test/ok") ]) :=
  C1_success_response_shape demoBody demoFetch "2026-01-01T00:00:00"
    "http://example.test/ok" "stub body" [("Content-Type", "application/json")]
    rfl (by decide) rfl rfl

/-- C2: a request whose body lacks `url` or maps it to the empty string is
answered with HTTP 400 and body `(error: "URL is required")`, for every
fetch oracle — so no outbound fetch can influence (or be required for) the
response — and for every remaining body content. -/
theorem C2_missing_or_empty_url_rejected (body : List (String × Json))
    (f : Json → FetchResult) (now : String)
    (h : getLastVal "url" body = none ∨
      getLastVal "url" body = some (.str "")) :
    process_url body f now = errURLRequired ∧
    (process_url body f now).status = 400 ∧
    (process_url body f now).body = .obj [("error", .str "URL is required")] := by
  have hfalse : pyTruthyOpt (getLastVal "url" body) = false := by
    rcases h with h | h <;> rw [h] <;> rfl
  rw [process_url_reject body f now hfalse]
  exact ⟨rfl, rfl, rfl⟩

/-- C2 (witness): the empty body with an extra `dataType` field is
rejected without consulting the fetch oracle. -/
theorem C2_witness :
    process_url [("dataType", Json.str "pdf")] demoFetch "T" =
      errURLRequired :=
  (C2_missing_or_empty_url_rejected [("dataType", Json.str "pdf")] demoFetch
    "T" (Or.inl rfl)).1

/-- C3: when the outbound GET raises a `RequestException` with a non-empty
description, the gateway responds HTTP 500 with body
`(error: <description>)`; the body has no `payload_preview` member, the
carried error string is non-empty, and the handler still returns a
response (the exception is caught). -/
theorem C3_fetch_failure_maps_to_500 (body : List (String × Json))
    (f : Json → FetchResult) (now reason : String) (u : Json)
    (hurl : getLastVal "url" body = some u) (htr : pyTruthy u = true)
    (hf : f u = .exn reason) (hne : reason ≠ "") :
    process_url body f now = ⟨500, .obj [("error", .str reason)]⟩ ∧
    Json.get (process_url body f now).body "payload_preview" = none ∧
    ∃ s, Json.get (process_url body f now).body "error" = some (.str s) ∧
      s ≠ "" := by
  rw [process_url_err body f now u reason hurl htr hf]
  exact ⟨rfl, rfl, reason, rfl, hne⟩

/-- C3 (witness): a connection-refused fetch at the concrete input. -/
theorem C3_witness :
    process_url demoBody demoFetchFail "T" =
      ⟨500, .obj [("error", .str "connection refused")]⟩ :=
  (C3_fetch_failure_maps_to_500 demoBody demoFetchFail "T"
    "connection refused" (.str "http://example.test/ok") rfl rfl rfl
    (by decide)).1

/-- C4: a fetch that completes with a non-2xx upstream status is still a
success: HTTP 200, the fixed `status_metadata` literal
"Content gathering complete.", and the upstream status code preserved
unchanged in the packaged `status_code` field. -/
theorem C4_non2xx_packaged_as_success (body : List (String × Json))
    (f : Json → FetchResult) (now : String) (u : Json) (r : UpstreamResponse)
    (hurl : getLastVal "url" body = some u) (htr : pyTruthy u = true)
    (hf : f u = .ok r)
    (_hnon : r.status_code < 200 ∨ 300 ≤ r.status_code) :
    (process_url body f now).status = 200 ∧
    jsonAt (process_url body f now).body
        ["payload_preview", "status_metadata"] =
      some (.str "Content gathering complete.") ∧
    jsonAt (process_url body f now).body
        ["payload_preview", "result_package", "data", "status_code"] =
      some (.num r.status_code) := by
  rw [process_url_success body f now u r hurl htr hf]
  exact ⟨rfl, rfl, rfl⟩

/-- C4 (witness): an upstream 404 at the concrete input. -/
theorem C4_witness :
    (process_url demoBody demoFetchDup "T").status = 200 ∧
    jsonAt (process_url demoBody demoFetchDup "T").body
        ["payload_preview", "status_metadata"] =
      some (.str "Content gathering complete.") ∧
    jsonAt (process_url demoBody demoFetchDup "T").body
        ["payload_preview", "result_package", "data", "status_code"] =
      some (.num 404) :=
  C4_non2xx_packaged_as_success demoBody demoFetchDup "T"
    (.str "http://example.test/ok") demoRespDup rfl rfl rfl
    (Or.inr (by decide))

/-- C5: on every success path the packaged `data.url` is exactly the JSON
value supplied as `url` in the request — independent of the upstream
response `r`, hence in particular not a redirected or final URL. -/
theorem C5_url_echoed_invariant (body : List (String × Json))
    (f : Json → FetchResult) (now : String) (u : Json) (r : UpstreamResponse)
    (hurl : getLastVal "url" body = some u) (htr : pyTruthy u = true)
    (hf : f u = .ok r) :
    jsonAt (process_url body f now).body
        ["payload_preview", "result_package", "data", "url"] = some u := by
  rw [process_url_success body f now u r hurl htr hf]
  rfl

/-- C5 (witness): the requested URL is echoed at the concrete input even
though the upstream response differs entirely from the request. -/
theorem C5_witness :
    jsonAt (process_url demoBody demoFetchDup "T").body
        ["payload_preview", "result_package", "data", "url"] =
      some (.str "http://example.test/ok") :=
  C5_url_echoed_invariant demoBody demoFetchDup "T"
    (.str "http://example.test/ok") demoRespDup rfl rfl rfl

/-- C6: the handler's response only depends on the `url` and
`originalPrompt` lookups of the body — in particular any supplied
`dataType` value, or its absence, leaves the response unchanged — and on
every success path `result_package.dataType` is the literal
"http_response". -/
theorem C6_dataType_ignored :
    (∀ (b1 b2 : List (String × Json)) (f : Json → FetchResult) (now : String),
        getLastVal "url" b1 = getLastVal "url" b2 →
        getLastVal "originalPrompt" b1 = getLastVal "originalPrompt" b2 →
        process_url b1 f now = process_url b2 f now) ∧
    (∀ (body : List (String × Json)) (f : Json → FetchResult) (now : String)
        (u : Json) (r : UpstreamResponse),
        getLastVal "url" body = some u → pyTruthy u = true → f u = .ok r →
        jsonAt (process_url body f now).body
            ["payload_preview", "result_package", "dataType"] =
          some (.str "http_response")) := by
  constructor
  · intro b1 b2 f now h1 h2
    simp only [process_url, h1, h2]
  · intro body f now u r hurl htr hf
    rw [process_url_success body f now u r hurl htr hf]
    rfl

/-- C6 (witness): adding `dataType = "pdf"` to the concrete body leaves
the response unchanged, and the packaged `dataType` is the literal. -/
theorem C6_witness :
    process_url demoBodyPdf demoFetch "T" = process_url demoBody demoFetch "T" ∧
    jsonAt (process_url demoBody demoFetch "T").body
        ["payload_preview", "result_package", "dataType"] =
      some (.str "http_response") :=
  ⟨C6_dataType_ignored.1 demoBodyPdf demoBody demoFetch "T" rfl rfl,
   C6_dataType_ignored.2 demoBody demoFetch "T" (.str "http://example.test/ok")
     demoResp rfl rfl rfl⟩

/-- C7: on every success path the payload's `original_prompt` is the
caller's `originalPrompt` value, with a missing field passed through as
JSON null (Python `None`), never as an empty string. -/
theorem C7_originalPrompt_echoed (body : List (String × Json))
    (f : Json → FetchResult) (now : String) (u : Json) (r : UpstreamResponse)
    (hurl : getLastVal "url" body = some u) (htr : pyTruthy u = true)
    (hf : f u = .ok r) :
    jsonAt (process_url body f now).body
        ["payload_preview", "original_prompt"] =
      some ((getLastVal "originalPrompt" body).getD .null) ∧
    (getLastVal "originalPrompt" body = none →
      jsonAt (process_url body f now).body
          ["payload_preview", "original_prompt"] = some .null) := by
  rw [process_url_success body f now u r hurl htr hf]
  refine ⟨rfl, fun h0 => ?_⟩
  rw [h0]
  rfl

/-- C7 (witness): "find cats" is echoed, and a body without
`originalPrompt` yields JSON null. -/
theorem C7_witness :
    jsonAt (process_url demoBody demoFetch "T").body
        ["payload_preview", "original_prompt"] = some (.str "find cats") ∧
    jsonAt (process_url [("url", Json.str "http://example.test/ok")]
        demoFetch "T").body ["payload_preview", "original_prompt"] =
      some .null :=
  ⟨(C7_originalPrompt_echoed demoBody demoFetch "T"
      (.str "http://example.test/ok") demoResp rfl rfl rfl).1,
   (C7_originalPrompt_echoed [("url", Json.str "http://example.test/ok")]
      demoFetch "T" (.str "http://example.test/ok") demoResp rfl rfl rfl).2 rfl⟩

/-- C8: every request ends in exactly one of the statuses 200, 400 and
500; the handler is a total function, so no uncaught exception escapes the
modelled branches. -/
theorem C8_response_trichotomy (body : List (String × Json))
    (f : Json → FetchResult) (now : String) :
    (process_url body f now).status = 200 ∨
    (process_url body f now).status = 400 ∨
    (process_url body f now).status = 500 := by
  cases h : pyTruthyOpt (getLastVal "url" body) with
  | false =>
    rw [process_url_reject body f now h]
    exact Or.inr (Or.inl rfl)
  | true =>
    cases hu : getLastVal "url" body with
    | none => rw [hu] at h; simp [pyTruthyOpt] at h
    | some u =>
      have htr : pyTruthy u = true := by rw [hu] at h; exact h
      cases hf : f u with
      | ok r =>
        rw [process_url_success body f now u r hu htr hf]
        exact Or.inl rfl
      | exn s =>
        rw [process_url_err body f now u s hu htr hf]
        exact Or.inr (Or.inr rfl)

/-- C9 (counterexample): at a concrete upstream response carrying
`Set-Cookie` twice, with values "a" then "b", the packaged headers bind
`Set-Cookie` to the comma-joined "a, b" produced by the HTTP client's
merge — not to the last value "b" that the claimed last-wins collapse
demands. -/
theorem C9_cex_no_last_wins :
    jsonAt (process_url demoBody demoFetchDup "T").body
        ["payload_preview", "result_package", "data", "headers",
          "Set-Cookie"] =
      some (.str "a, b") ∧
    jsonAt (process_url demoBody demoFetchDup "T").body
        ["payload_preview", "result_package", "data", "headers",
          "Set-Cookie"] ≠
      some (.str "b") := by
  refine ⟨rfl, fun h => ?_⟩
  have h2 : some (Json.str "a, b") = some (Json.str "b") := by rw [← h]; rfl
  simp at h2

/-- C9 (amended): the packaged `headers` field is a mapping with one
value per header name; duplicate wire headers for the same name are merged
by the HTTP client before packaging, their values comma-joined in arrival
order, and `dict(response.headers)` preserves that one-value-per-name
mapping unchanged. -/
theorem C9_headers_client_merged :
    (∀ ps : List (String × String),
        ((pyDict (mergeHeaders ps)).map Prod.fst).Nodup) ∧
    (∀ (ps : List (String × String)) (k : String),
        dictGet k (pyDict (mergeHeaders ps)) =
          match valuesFor k ps with
          | [] => none
          | v :: vs => some (joinFold v vs)) ∧
    (∀ (body : List (String × Json)) (f : Json → FetchResult) (now : String)
        (u : Json) (r : UpstreamResponse),
        getLastVal "url" body = some u → pyTruthy u = true → f u = .ok r →
        jsonAt (process_url body f now).body
            ["payload_preview", "result_package", "data", "headers"] =
          some (headersJson r.headers)) := by
  refine ⟨fun ps => nodupKeys_pyDict (mergeHeaders ps), fun ps k => ?_, ?_⟩
  · rw [pyDict_of_nodupKeys (mergeHeaders ps) (nodupKeys_mergeHeaders ps)]
    exact dictGet_mergeHeaders k ps
  · intro body f now u r hurl htr hf
    rw [process_url_success body f now u r hurl htr hf]
    rfl

/-- C9 (witness): the duplicated `Set-Cookie` header comma-joins to
"a, b", both in the merged-then-`dict`-ed mapping and in the packaged
response. -/
theorem C9_witness :
    dictGet "Set-Cookie"
        (pyDict (mergeHeaders [("Set-Cookie", "a"), ("Set-Cookie", "b")])) =
      some "a, b" ∧
    jsonAt (process_url demoBody demoFetchDup "T").body
        ["payload_preview", "result_package", "data", "headers"] =
      some (.obj [("Set-Cookie", .str "a, b")]) :=
  ⟨(C9_headers_client_merged.2.1 [("Set-Cookie", "a"), ("Set-Cookie", "b")]
      "Set-Cookie").trans rfl,
   C9_headers_client_merged.2.2 demoBody demoFetchDup "T"
     (.str "http://example.test/ok") demoRespDup rfl rfl rfl⟩

/-- C10: the `url` presence check is Python truthiness: any falsy JSON
value bound to `url` (null, empty string, false, zero, empty array, empty
object) is rejected exactly like an absent field — HTTP 400 with
`(error: "URL is required")` for every fetch oracle — and the listed
values are indeed all falsy. -/
theorem C10_truthiness_validation (body : List (String × Json))
    (f : Json → FetchResult) (now : String) (v : Json)
    (hurl : getLastVal "url" body = some v) (hfalsy : pyTruthy v = false) :
    process_url body f now = errURLRequired ∧
    pyTruthy .null = false ∧ pyTruthy (.str "") = false ∧
    pyTruthy (.bool false) = false ∧ pyTruthy (.num 0) = false ∧
    pyTruthy (.arr []) = false ∧ pyTruthy (.obj []) = false := by
  refine ⟨process_url_reject body f now ?_, rfl, rfl, rfl, rfl, rfl, rfl⟩
  rw [hurl]
  exact hfalsy

/-- C10 (witness): `url = 0` is rejected as missing at a concrete body. -/
theorem C10_witness :
    process_url [("url", Json.num 0), ("originalPrompt", Json.str "x")]
      demoFetch "T" = errURLRequired :=
  (C10_truthiness_validation
    [("url", Json.num 0), ("originalPrompt", Json.str "x")] demoFetch "T"
    (Json.num 0) rfl rfl).1

end Meowstik
